import Mathlib

/-!
Verification of the qtools TDD workflow helper (`src/tdd_helper.py`).

The development shallowly embeds the workflow state engine: the enum types
`FileStatus`, `ScenarioLevel` and `WorkflowState`, the per-component
`WorkflowTracker` record, the hard-coded project registry of
`QToolsProject.__init__`, the JSON persistence layer
(`save_workflow_status` / `load_workflow_status`), the scheduler
(`get_next_task` / `get_current_file`) and the action-recording methods of
`QToolsWorkflowHelper`, plus the relevant guard logic of the `QToolsPrompt`
shell commands.  Python dictionaries are modelled as insertion-ordered
association lists, in-place mutation as pointwise functional update, and
raised exceptions as `Option`/`Except` results.
-/

/-- The legacy `FileStatus` enum (string-valued in the source). -/
inductive FileStatus where
  | PENDING
  | TESTS_WRITTEN
  | TESTS_REVIEWED
  | CODE_IMPLEMENTED
  | CODE_REVIEWED
  | COMPLETED
deriving DecidableEq, Repr

/-- The Python `.value` payload of each `FileStatus` member. -/
def FileStatus.value : FileStatus → String
  | .PENDING => "pending"
  | .TESTS_WRITTEN => "tests_written"
  | .TESTS_REVIEWED => "tests_reviewed"
  | .CODE_IMPLEMENTED => "code_implemented"
  | .CODE_REVIEWED => "code_reviewed"
  | .COMPLETED => "completed"

/-- Python `FileStatus(value)` lookup by value; `none` models the raised
`ValueError` on an unknown value. -/
def FileStatus_ofValue (s : String) : Option FileStatus :=
  if s = "pending" then some .PENDING
  else if s = "tests_written" then some .TESTS_WRITTEN
  else if s = "tests_reviewed" then some .TESTS_REVIEWED
  else if s = "code_implemented" then some .CODE_IMPLEMENTED
  else if s = "code_reviewed" then some .CODE_REVIEWED
  else if s = "completed" then some .COMPLETED
  else none

/-- The `ScenarioLevel` enum. -/
inductive ScenarioLevel where
  | BASIC
  | INTERMEDIATE
  | ADVANCED
deriving DecidableEq, Repr

/-- The Python `.value` payload of each `ScenarioLevel` member. -/
def ScenarioLevel.value : ScenarioLevel → String
  | .BASIC => "basic"
  | .INTERMEDIATE => "intermediate"
  | .ADVANCED => "advanced"

/-- Python `ScenarioLevel(value)` lookup by value. -/
def ScenarioLevel_ofValue (s : String) : Option ScenarioLevel :=
  if s = "basic" then some .BASIC
  else if s = "intermediate" then some .INTERMEDIATE
  else if s = "advanced" then some .ADVANCED
  else none

/-- The `WorkflowState` gate enum (`auto()`-valued; serialized by `.name`). -/
inductive WorkflowState where
  | PENDING
  | ISSUE_CREATED
  | TESTS_PROVIDED
  | TESTS_REVIEWED
  | IMPLEMENTATION_PROVIDED
  | IMPLEMENTATION_REVIEWED
  | DOCUMENTATION_PROVIDED
  | DOCUMENTATION_REVIEWED
  | EXAMPLES_PROVIDED
  | EXAMPLES_REVIEWED
  | COMPLETED
deriving DecidableEq, Repr

/-- The Python `.name` of each `WorkflowState` member. -/
def WorkflowState.name : WorkflowState → String
  | .PENDING => "PENDING"
  | .ISSUE_CREATED => "ISSUE_CREATED"
  | .TESTS_PROVIDED => "TESTS_PROVIDED"
  | .TESTS_REVIEWED => "TESTS_REVIEWED"
  | .IMPLEMENTATION_PROVIDED => "IMPLEMENTATION_PROVIDED"
  | .IMPLEMENTATION_REVIEWED => "IMPLEMENTATION_REVIEWED"
  | .DOCUMENTATION_PROVIDED => "DOCUMENTATION_PROVIDED"
  | .DOCUMENTATION_REVIEWED => "DOCUMENTATION_REVIEWED"
  | .EXAMPLES_PROVIDED => "EXAMPLES_PROVIDED"
  | .EXAMPLES_REVIEWED => "EXAMPLES_REVIEWED"
  | .COMPLETED => "COMPLETED"

/-- Python `WorkflowState[name]` lookup by member name; `none` models the
raised `KeyError` on an unknown name. -/
def WorkflowState_ofName (s : String) : Option WorkflowState :=
  if s = "PENDING" then some .PENDING
  else if s = "ISSUE_CREATED" then some .ISSUE_CREATED
  else if s = "TESTS_PROVIDED" then some .TESTS_PROVIDED
  else if s = "TESTS_REVIEWED" then some .TESTS_REVIEWED
  else if s = "IMPLEMENTATION_PROVIDED" then some .IMPLEMENTATION_PROVIDED
  else if s = "IMPLEMENTATION_REVIEWED" then some .IMPLEMENTATION_REVIEWED
  else if s = "DOCUMENTATION_PROVIDED" then some .DOCUMENTATION_PROVIDED
  else if s = "DOCUMENTATION_REVIEWED" then some .DOCUMENTATION_REVIEWED
  else if s = "EXAMPLES_PROVIDED" then some .EXAMPLES_PROVIDED
  else if s = "EXAMPLES_REVIEWED" then some .EXAMPLES_REVIEWED
  else if s = "COMPLETED" then some .COMPLETED
  else none

/-- The `WorkflowTracker` dataclass: the per-component workflow record. -/
structure WorkflowTracker where
  source_file : String
  test_file : String
  example_file : Option String
  status : FileStatus
  scenario : ScenarioLevel
  workflow_state : WorkflowState
  issue_number : Option String
  last_updated : String
  notes : List String
  dependencies : List String
  acceptance_criteria : List String
  test_review_comments : List String
  implementation_review_comments : List String
  documentation_review_comments : List String
  examples_review_comments : List String
deriving DecidableEq, Repr

/-- One value of the `QToolsProject.files` table. -/
structure FileInfo where
  test_file : String
  example_file : String
  scenario : ScenarioLevel
  dependencies : List String
  description : String
deriving DecidableEq, Repr

/-- The hard-coded `QToolsProject.files` registry, in source (insertion)
order. -/
def qtoolsFiles : List (String × FileInfo) :=
  [ ("src/utils/types.rs",
     { test_file := "tests/utils/types_tests.rs"
       example_file := "examples/types_usage.rs"
       scenario := .BASIC
       dependencies := []
       description := "Core data structures for time series and market data" }),
    ("src/signal/weak_signal.rs",
     { test_file := "tests/signal/weak_signal_tests.rs"
       example_file := "examples/signal_analysis.rs"
       scenario := .BASIC
       dependencies := ["src/utils/types.rs"]
       description := "Weak signal detection and filtering" }),
    ("src/pattern/recognition.rs",
     { test_file := "tests/pattern/recognition_tests.rs"
       example_file := "examples/pattern_detection.rs"
       scenario := .BASIC
       dependencies := ["src/utils/types.rs"]
       description := "Basic pattern recognition algorithms" }),
    ("src/quantum/state.rs",
     { test_file := "tests/quantum/state_tests.rs"
       example_file := "examples/quantum_state.rs"
       scenario := .INTERMEDIATE
       dependencies := ["src/utils/types.rs", "src/signal/weak_signal.rs"]
       description := "Quantum state representation and analysis" }),
    ("src/sync/phase.rs",
     { test_file := "tests/sync/phase_tests.rs"
       example_file := "examples/phase_sync.rs"
       scenario := .INTERMEDIATE
       dependencies := ["src/quantum/state.rs"]
       description := "Phase synchronization detection" }),
    ("src/network/kuramoto.rs",
     { test_file := "tests/network/kuramoto_tests.rs"
       example_file := "examples/kuramoto_model.rs"
       scenario := .ADVANCED
       dependencies := ["src/quantum/state.rs", "src/sync/phase.rs"]
       description := "Kuramoto model implementation for network synchronization" }),
    ("src/network/topology.rs",
     { test_file := "tests/network/topology_tests.rs"
       example_file := "examples/network_topology.rs"
       scenario := .ADVANCED
       dependencies := ["src/network/kuramoto.rs"]
       description := "Network topology analysis" }),
    ("src/quantum/entanglement.rs",
     { test_file := "tests/quantum/entanglement_tests.rs"
       example_file := "examples/entanglement.rs"
       scenario := .ADVANCED
       dependencies := ["src/quantum/state.rs"]
       description := "Quantum entanglement measures" }) ]

/-- Error raised at registry construction time in the spec's taxonomy.  The
embedded constructor below never produces it. -/
inductive RegistryError where
  | cycle
  | dangling
deriving DecidableEq, Repr

/-- `QToolsProject.__init__`: the body only assigns the literal `files`
table (and string templates) to the instance; it inspects no dependency,
performs no cycle or dangling-reference check, and contains no `raise`.
Modelled over the stored table with an explicit error channel to express
that no code path fails.  The table actually stored is `qtoolsFiles`. -/
def QToolsProject_init (files : List (String × FileInfo)) :
    Except RegistryError (List (String × FileInfo)) :=
  Except.ok files

/-- The workflow-status mapping `self.workflow_status`, a Python dict
modelled as an insertion-ordered association list. -/
abbrev Status := List (String × WorkflowTracker)

/-- Python dict indexing `self.workflow_status[k]` (first entry with the
key; dict states have unique keys). -/
def lookupStatus (st : Status) (k : String) : Option WorkflowTracker :=
  (List.find? (fun kt => kt.1 == k) st).map Prod.snd

/-- In-place mutation of the tracker stored at key `k`, modelled as a
pointwise functional update of every entry carrying that key (on the
unique-key states a Python dict can hold, exactly one entry changes). -/
def updateStatus (st : Status) (k : String) (f : WorkflowTracker → WorkflowTracker) : Status :=
  st.map (fun kt => if kt.1 = k then (kt.1, f kt.2) else kt)

/-- The seeding branch of `load_workflow_status` (missing file): one
`PENDING` record per registry entry, in registry order.  `now` stands for
`datetime.datetime.now().isoformat()`. -/
def initialStatus (now : String) : Status :=
  qtoolsFiles.map (fun kinfo =>
    (kinfo.1,
     { source_file := kinfo.1
       test_file := kinfo.2.test_file
       example_file := some kinfo.2.example_file
       status := .PENDING
       scenario := kinfo.2.scenario
       workflow_state := .PENDING
       issue_number := none
       last_updated := now
       notes := []
       dependencies := kinfo.2.dependencies
       acceptance_criteria := []
       test_review_comments := []
       implementation_review_comments := []
       documentation_review_comments := []
       examples_review_comments := [] }))

/-- The dependency check inside `get_next_task`: all dependencies of the
tracker have `COMPLETED` records.  A dependency absent from the mapping is
treated as not completed here; the Python raises `KeyError` there instead,
but on every state whose keys cover all stored dependencies (the seeded
state and everything reachable from it) the two agree. -/
def deps_completed (st : Status) (deps : List String) : Bool :=
  deps.all (fun dep =>
    match lookupStatus st dep with
    | some r => r.workflow_state == WorkflowState.COMPLETED
    | none => false)

/-- `QToolsWorkflowHelper.get_next_task`: first entry of the mapping whose
gate is not `COMPLETED` and whose dependencies are all `COMPLETED`. -/
def get_next_task (st : Status) : Option (String × List String) :=
  (List.find? (fun kt =>
      kt.2.workflow_state != WorkflowState.COMPLETED
        && deps_completed st kt.2.dependencies) st).map
    (fun kt => (kt.1, kt.2.dependencies))

/-- `QToolsWorkflowHelper.get_current_file`. -/
def get_current_file (st : Status) : Option String :=
  (get_next_task st).map Prod.fst

/-- The common shape of every action-recording method of
`QToolsWorkflowHelper`: resolve the current file (return `False` with no
mutation if there is none), mutate that tracker's fields, call
`save_workflow_status`, return `True`.  The boolean is the method's return
value; it is `true` exactly on the paths that mutate and save. -/
def modify_current (st : Status) (f : WorkflowTracker → WorkflowTracker) : Status × Bool :=
  match get_current_file st with
  | none => (st, false)
  | some k => (updateStatus st k f, true)

/-- `QToolsWorkflowHelper.record_issue`. -/
def record_issue (st : Status) (now issue_number : String) : Status × Bool :=
  modify_current st (fun t =>
    { t with issue_number := some issue_number
             workflow_state := .ISSUE_CREATED
             last_updated := now })

/-- `QToolsWorkflowHelper.record_tests`. -/
def record_tests (st : Status) (now : String) : Status × Bool :=
  modify_current st (fun t =>
    { t with workflow_state := .TESTS_PROVIDED
             status := .TESTS_WRITTEN
             last_updated := now })

/-- `QToolsWorkflowHelper.approve_tests`. -/
def approve_tests (st : Status) (now : String) (comment : Option String) : Status × Bool :=
  modify_current st (fun t =>
    { t with workflow_state := .TESTS_REVIEWED
             status := .TESTS_REVIEWED
             test_review_comments :=
               match comment with
               | some c => t.test_review_comments ++ [c]
               | none => t.test_review_comments
             last_updated := now })

/-- `QToolsWorkflowHelper.request_test_changes`: back to `ISSUE_CREATED`,
comment appended unconditionally, `status` untouched. -/
def request_test_changes (st : Status) (now comment : String) : Status × Bool :=
  modify_current st (fun t =>
    { t with workflow_state := .ISSUE_CREATED
             test_review_comments := t.test_review_comments ++ [comment]
             last_updated := now })

/-- `QToolsWorkflowHelper.record_implementation`. -/
def record_implementation (st : Status) (now : String) : Status × Bool :=
  modify_current st (fun t =>
    { t with workflow_state := .IMPLEMENTATION_PROVIDED
             status := .CODE_IMPLEMENTED
             last_updated := now })

/-- `QToolsWorkflowHelper.approve_implementation`. -/
def approve_implementation (st : Status) (now : String) (comment : Option String) :
    Status × Bool :=
  modify_current st (fun t =>
    { t with workflow_state := .IMPLEMENTATION_REVIEWED
             status := .CODE_REVIEWED
             implementation_review_comments :=
               match comment with
               | some c => t.implementation_review_comments ++ [c]
               | none => t.implementation_review_comments
             last_updated := now })

/-- The serialized (JSON-level) form of a `WorkflowTracker`: the three enum
fields become strings exactly as in `save_workflow_status` (`.value`,
`.value`, `.name`); everything else serializes structurally. -/
structure RawTracker where
  source_file : String
  test_file : String
  example_file : Option String
  status : String
  scenario : String
  workflow_state : String
  issue_number : Option String
  last_updated : String
  notes : List String
  dependencies : List String
  acceptance_criteria : List String
  test_review_comments : List String
  implementation_review_comments : List String
  documentation_review_comments : List String
  examples_review_comments : List String
deriving DecidableEq, Repr

/-- The per-record serialization performed inside `save_workflow_status`:
`{**asdict(v), 'status': v.status.value, 'scenario': v.scenario.value,
'workflow_state': v.workflow_state.name}`. -/
def serializeTracker (t : WorkflowTracker) : RawTracker :=
  { source_file := t.source_file
    test_file := t.test_file
    example_file := t.example_file
    status := t.status.value
    scenario := t.scenario.value
    workflow_state := t.workflow_state.name
    issue_number := t.issue_number
    last_updated := t.last_updated
    notes := t.notes
    dependencies := t.dependencies
    acceptance_criteria := t.acceptance_criteria
    test_review_comments := t.test_review_comments
    implementation_review_comments := t.implementation_review_comments
    documentation_review_comments := t.documentation_review_comments
    examples_review_comments := t.examples_review_comments }

/-- `QToolsWorkflowHelper.save_workflow_status`: the JSON object written to
`.workflow_status.json`, one serialized record per mapping entry. -/
def save_workflow_status (st : Status) : List (String × RawTracker) :=
  st.map (fun kt => (kt.1, serializeTracker kt.2))

/-- Failure mode of loading a present state file: the Python enum
conversions raise (`ValueError` / `KeyError`) and the exception propagates
out of `load_workflow_status` uncaught; the spec calls this condition
`CorruptState`. -/
inductive LoadError where
  | CorruptState
deriving DecidableEq, Repr

/-- The per-record deserialization in `load_workflow_status`:
`WorkflowTracker(**{**v, 'status': FileStatus(v['status']), 'scenario':
ScenarioLevel(v['scenario']), 'workflow_state':
WorkflowState[v['workflow_state']]})`; `none` models a raise during any of
the three enum conversions. -/
def parseTracker (r : RawTracker) : Option WorkflowTracker :=
  match FileStatus_ofValue r.status, ScenarioLevel_ofValue r.scenario,
      WorkflowState_ofName r.workflow_state with
  | some s, some sc, some ws =>
    some { source_file := r.source_file
           test_file := r.test_file
           example_file := r.example_file
           status := s
           scenario := sc
           workflow_state := ws
           issue_number := r.issue_number
           last_updated := r.last_updated
           notes := r.notes
           dependencies := r.dependencies
           acceptance_criteria := r.acceptance_criteria
           test_review_comments := r.test_review_comments
           implementation_review_comments := r.implementation_review_comments
           documentation_review_comments := r.documentation_review_comments
           examples_review_comments := r.examples_review_comments }
  | _, _, _ => none

/-- The dict comprehension of `load_workflow_status` over a present file's
parsed JSON: the first record whose enum conversion raises aborts the whole
load with the propagated exception. -/
def parseData : List (String × RawTracker) → Except LoadError Status
  | [] => Except.ok []
  | (k, r) :: rest =>
    match parseTracker r with
    | none => Except.error LoadError.CorruptState
    | some t => (parseData rest).map (fun st => (k, t) :: st)

/-- `QToolsWorkflowHelper.load_workflow_status`: parse the file when it
exists (`some data`), otherwise seed fresh `PENDING` records from the
registry (and save them). -/
def load_workflow_status (file : Option (List (String × RawTracker))) (now : String) :
    Except LoadError Status :=
  match file with
  | some data => parseData data
  | none => Except.ok (initialStatus now)

/-- Outcome of the `QToolsPrompt.do_request_test_changes` shell command:
either the empty-comment guard rejects (error message printed, helper never
called, nothing saved) or the helper runs and returns its boolean. -/
inductive RequestChangesResult where
  | missing_comment
  | helper_returned (b : Bool)
deriving DecidableEq, Repr

/-- `QToolsPrompt.do_request_test_changes`: the stripped comment is checked
first; an empty comment aborts before `request_test_changes` is invoked. -/
def do_request_test_changes (st : Status) (now comment : String) :
    Status × RequestChangesResult :=
  if comment = "" then (st, RequestChangesResult.missing_comment)
  else
    ((request_test_changes st now comment).1,
     RequestChangesResult.helper_returned (request_test_changes st now comment).2)

/-- The methods defined on `class QToolsWorkflowHelper`, in source order. -/
def helper_method_names : List String :=
  [ "__init__", "load_workflow_status", "save_workflow_status",
    "get_next_task", "get_current_file", "format_instruction_header",
    "format_instruction_step", "get_issue_creation_instructions",
    "record_issue", "record_tests", "approve_tests", "request_test_changes",
    "record_implementation", "approve_implementation", "run_tests",
    "show_progress", "get_next_action", "get_test_request_instructions",
    "get_test_review_instructions", "get_implementation_request_instructions",
    "get_implementation_review_instructions",
    "get_documentation_request_instructions",
    "get_documentation_review_instructions",
    "get_examples_request_instructions", "get_examples_review_instructions",
    "get_completion_instructions" ]

/-- The helper attribute that `QToolsPrompt.do_request_implementation_changes`
invokes (`self.helper.request_implementation_changes(comment)`). -/
def do_request_implementation_changes_target : String :=
  "request_implementation_changes"

/-- Dependencies of a key in a registry table (empty for an unknown key). -/
def depsOf (reg : List (String × FileInfo)) (k : String) : List String :=
  match (List.find? (fun kinfo => kinfo.1 == k) reg).map Prod.snd with
  | some info => info.dependencies
  | none => []

/-- Fuel-bounded reachability along registry dependency edges. -/
def reachesB (reg : List (String × FileInfo)) : Nat → String → String → Bool
  | 0, _, _ => false
  | n + 1, a, b =>
    (depsOf reg a).any (fun d => d == b || reachesB reg n d b)

/-- A registry's dependency graph contains a cycle: some key reaches
itself (fuel `reg.length` suffices on a finite graph). -/
def hasCycleB (reg : List (String × FileInfo)) : Bool :=
  reg.any (fun kinfo => reachesB reg reg.length kinfo.1 kinfo.1)

/-- A registry contains a dangling reference: some declared dependency is
not itself a registry key. -/
def danglingB (reg : List (String × FileInfo)) : Bool :=
  reg.any (fun kinfo =>
    kinfo.2.dependencies.any (fun d => !(reg.any (fun k2 => k2.1 == d))))

/-- A two-component registry whose dependency graph is a 2-cycle. -/
def cyclicFiles : List (String × FileInfo) :=
  [ ("a", { test_file := "ta", example_file := "ea", scenario := .BASIC
            dependencies := ["b"], description := "a" }),
    ("b", { test_file := "tb", example_file := "eb", scenario := .BASIC
            dependencies := ["a"], description := "b" }) ]

/-- Topological rank of the eight registry components: every declared
dependency has strictly smaller rank (checked in `rank_lt_of_dep`). -/
def rank : String → Nat
  | "src/utils/types.rs" => 0
  | "src/signal/weak_signal.rs" => 1
  | "src/pattern/recognition.rs" => 1
  | "src/quantum/state.rs" => 2
  | "src/sync/phase.rs" => 3
  | "src/network/kuramoto.rs" => 4
  | "src/network/topology.rs" => 5
  | "src/quantum/entanglement.rs" => 3
  | _ => 0

/-- Specification-side scheduler, following the spec's words: iterate
Registry ids in registration order and return the first id whose record's
gate is not `COMPLETED` and all of whose registry dependencies have
`COMPLETED` records.  Compared against `get_current_file` in the
refinement theorem for the scheduler claim. -/
def spec_current_task (st : Status) : Option String :=
  (List.find? (fun kinfo =>
      match lookupStatus st kinfo.1 with
      | some t =>
        t.workflow_state != WorkflowState.COMPLETED
          && deps_completed st kinfo.2.dependencies
      | none => false) qtoolsFiles).map Prod.fst

/-! ### Association-list lemmas for the status mapping -/

theorem lookupStatus_cons (a : String × WorkflowTracker) (tl : Status) (k : String) :
    lookupStatus (a :: tl) k = if a.1 = k then some a.2 else lookupStatus tl k := by
  by_cases h : a.1 = k
  · simp [lookupStatus, List.find?_cons, h]
  · have hb : (a.1 == k) = false := by simp [h]
    simp [lookupStatus, List.find?_cons, hb, h]

theorem lookupStatus_isSome_of_mem_keys {st : Status} {k : String}
    (h : k ∈ st.map Prod.fst) : ∃ t, lookupStatus st k = some t := by
  induction st with
  | nil => simp at h
  | cons a tl ih =>
    rw [List.map_cons, List.mem_cons] at h
    by_cases hak : a.1 = k
    · exact ⟨a.2, by simp [lookupStatus_cons, hak]⟩
    · have hk : k ∈ tl.map Prod.fst := by
        rcases h with h | h
        · exact absurd h.symm hak
        · exact h
      obtain ⟨t, ht⟩ := ih hk
      exact ⟨t, by simp [lookupStatus_cons, hak, ht]⟩

theorem mem_of_lookupStatus {st : Status} {k : String} {t : WorkflowTracker}
    (h : lookupStatus st k = some t) : (k, t) ∈ st := by
  induction st with
  | nil => simp [lookupStatus] at h
  | cons a tl ih =>
    rw [lookupStatus_cons] at h
    by_cases hak : a.1 = k
    · rw [if_pos hak] at h
      have : a = (k, t) := by
        cases a with
        | mk a1 a2 => simp at h; simp [← hak, h]
      exact this ▸ List.mem_cons_self a tl
    · rw [if_neg hak] at h
      exact List.mem_cons_of_mem a (ih h)

theorem lookupStatus_of_mem_nodup {st : Status} {k : String} {t : WorkflowTracker}
    (hnd : (st.map Prod.fst).Nodup) (h : (k, t) ∈ st) : lookupStatus st k = some t := by
  induction st with
  | nil => simp at h
  | cons a tl ih =>
    rw [List.map_cons, List.nodup_cons] at hnd
    rw [List.mem_cons] at h
    rcases h with h | h
    · simp [lookupStatus_cons, ← h]
    · have hak : a.1 ≠ k := by
        intro he
        exact hnd.1 (he ▸ List.mem_map.mpr ⟨(k, t), h, rfl⟩)
      simp [lookupStatus_cons, hak, ih hnd.2 h]

theorem lookupStatus_updateStatus_self (st : Status) (k : String)
    (f : WorkflowTracker → WorkflowTracker) :
    lookupStatus (updateStatus st k f) k = (lookupStatus st k).map f := by
  induction st with
  | nil => rfl
  | cons a tl ih =>
    by_cases h : a.1 = k
    · simp [updateStatus, List.map_cons, h, lookupStatus_cons]
    · simp [updateStatus, List.map_cons, lookupStatus_cons, h]
      simpa [updateStatus] using ih

theorem lookupStatus_updateStatus_ne (st : Status) {k k' : String}
    (f : WorkflowTracker → WorkflowTracker) (hne : k ≠ k') :
    lookupStatus (updateStatus st k' f) k = lookupStatus st k := by
  induction st with
  | nil => rfl
  | cons a tl ih =>
    by_cases h : a.1 = k'
    · simp [updateStatus, List.map_cons, h, lookupStatus_cons, Ne.symm hne]
      simpa [updateStatus] using ih
    · by_cases hak : a.1 = k
      · simp [updateStatus, List.map_cons, lookupStatus_cons, hak, hne]
      · simp [updateStatus, List.map_cons, lookupStatus_cons, h, hak]
        simpa [updateStatus] using ih

theorem modify_current_of_none {st : Status} {f : WorkflowTracker → WorkflowTracker}
    (h : get_current_file st = none) : modify_current st f = (st, false) := by
  simp [modify_current, h]

theorem modify_current_of_some {st : Status} {f : WorkflowTracker → WorkflowTracker}
    {k : String} (h : get_current_file st = some k) :
    (modify_current st f).2 = true ∧
      lookupStatus (modify_current st f).1 k = (lookupStatus st k).map f := by
  simp [modify_current, h, lookupStatus_updateStatus_self]

theorem modify_current_frame {st : Status} {f : WorkflowTracker → WorkflowTracker}
    {k : String} (h : get_current_file st ≠ some k) :
    lookupStatus (modify_current st f).1 k = lookupStatus st k := by
  unfold modify_current
  cases hc : get_current_file st with
  | none => rfl
  | some k' =>
    have hne : k ≠ k' := fun he => h (he ▸ hc)
    simpa using lookupStatus_updateStatus_ne st f hne

theorem mem_keys_of_get_current_file {st : Status} {k : String}
    (h : get_current_file st = some k) : k ∈ st.map Prod.fst := by
  unfold get_current_file get_next_task at h
  cases hfind : List.find? (fun kt =>
      kt.2.workflow_state != WorkflowState.COMPLETED
        && deps_completed st kt.2.dependencies) st with
  | none => rw [hfind] at h; simp at h
  | some kt =>
    rw [hfind] at h
    simp only [Option.map_map, Option.map_some] at h
    have hk : kt.1 = k := by simpa using h
    exact hk ▸ List.mem_map.mpr ⟨kt, List.mem_of_find?_eq_some hfind, rfl⟩

theorem lookup_isSome_of_get_current_file {st : Status} {k : String}
    (h : get_current_file st = some k) : ∃ t, lookupStatus st k = some t :=
  lookupStatus_isSome_of_mem_keys (mem_keys_of_get_current_file h)

/-! ### Facts about the concrete registry, by evaluation -/

theorem rank_lt_of_dep :
    ∀ kinfo ∈ qtoolsFiles, ∀ d ∈ kinfo.2.dependencies, rank d < rank kinfo.1 := by
  decide

theorem deps_are_keys :
    ∀ kinfo ∈ qtoolsFiles, ∀ d ∈ kinfo.2.dependencies, d ∈ qtoolsFiles.map Prod.fst := by
  decide

theorem qtools_keys_nodup : (qtoolsFiles.map Prod.fst).Nodup := by
  decide

/-! ### Scheduler: first-eligible refinement and the completion criterion -/

theorem find?_map_congr {α β γ : Type} (f : α → γ) (g : β → γ) (p : α → Bool) (q : β → Bool) :
    ∀ (l : List α) (r : List β), l.map f = r.map g →
      (∀ a ∈ l, ∀ b ∈ r, f a = g b → p a = q b) →
      (l.find? p).map f = (r.find? q).map g := by
  intro l
  induction l with
  | nil =>
    intro r hmap _
    have : r = [] := by simpa using hmap.symm
    subst this
    rfl
  | cons a tl ih =>
    intro r hmap hpq
    cases r with
    | nil => simp at hmap
    | cons b rt =>
      rw [List.map_cons, List.map_cons] at hmap
      injection hmap with h1 h2
      have hpqab : p a = q b := hpq a (by simp) b (by simp) h1
      cases hpa : p a with
      | true =>
        have hqb : q b = true := by rw [← hpqab, hpa]
        simp [List.find?_cons, hpa, hqb, h1]
      | false =>
        have hqb : q b = false := by rw [← hpqab, hpa]
        simp only [List.find?_cons, hpa, hqb]
        exact ih rt h2 (fun a' ha' b' hb' => hpq a' (by simp [ha']) b' (by simp [hb']))

theorem eligible_exists (st : Status)
    (hkeys : st.map Prod.fst = qtoolsFiles.map Prod.fst)
    (hdeps : ∀ kt ∈ st, ∀ kinfo ∈ qtoolsFiles, kinfo.1 = kt.1 →
      kt.2.dependencies = kinfo.2.dependencies) :
    ∀ (k : String) (t : WorkflowTracker), lookupStatus st k = some t →
      t.workflow_state ≠ WorkflowState.COMPLETED →
      ∃ kt ∈ st, (kt.2.workflow_state != WorkflowState.COMPLETED
        && deps_completed st kt.2.dependencies) = true := by
  have H : ∀ (n : Nat) (k : String) (t : WorkflowTracker), rank k < n →
      lookupStatus st k = some t → t.workflow_state ≠ WorkflowState.COMPLETED →
      ∃ kt ∈ st, (kt.2.workflow_state != WorkflowState.COMPLETED
        && deps_completed st kt.2.dependencies) = true := by
    intro n
    induction n with
    | zero => intro k t hrank; omega
    | succ m ih =>
      intro k t hrank hlook hws
      have hmem : (k, t) ∈ st := mem_of_lookupStatus hlook
      by_cases hdc : deps_completed st t.dependencies = true
      · refine ⟨(k, t), hmem, ?_⟩
        simp [hdc, bne_iff_ne, hws]
      · have hkmem : k ∈ qtoolsFiles.map Prod.fst := by
          rw [← hkeys]
          exact List.mem_map.mpr ⟨(k, t), hmem, rfl⟩
        obtain ⟨kinfo, hkinfo, hfst⟩ := List.mem_map.mp hkmem
        have hdepeq : t.dependencies = kinfo.2.dependencies :=
          hdeps (k, t) hmem kinfo hkinfo (by simpa using hfst)
        have hex : ∃ d ∈ t.dependencies,
            (match lookupStatus st d with
             | some r => r.workflow_state == WorkflowState.COMPLETED
             | none => false) = false := by
          by_contra hno
          push_neg at hno
          apply hdc
          unfold deps_completed
          rw [List.all_eq_true]
          intro d hd
          have hne := hno d hd
          revert hne
          cases (match lookupStatus st d with
                 | some r => r.workflow_state == WorkflowState.COMPLETED
                 | none => false) <;> simp
        obtain ⟨d, hd, hdfail⟩ := hex
        have hdreg : d ∈ qtoolsFiles.map Prod.fst :=
          deps_are_keys kinfo hkinfo d (hdepeq ▸ hd)
        have hdrank : rank d < rank k := by
          have hlt := rank_lt_of_dep kinfo hkinfo d (hdepeq ▸ hd)
          rwa [hfst] at hlt
        have hdkeys : d ∈ st.map Prod.fst := by rw [hkeys]; exact hdreg
        obtain ⟨t', hlook'⟩ := lookupStatus_isSome_of_mem_keys hdkeys
        have hws' : t'.workflow_state ≠ WorkflowState.COMPLETED := by
          rw [hlook'] at hdfail
          simpa using hdfail
        exact ih d t' (by omega) hlook' hws'
  intro k t hlook hws
  exact H (rank k + 1) k t (by omega) hlook hws

/-- Claim C2: for every state of the workflow record mapping carrying the
registry's keys and dependency lists, `get_current_file` (the engine's
`current_task()`) returns exactly the first component id in Registry
registration order whose record's gate is not `COMPLETED` and all of whose
declared dependencies have `COMPLETED` records (the spec-side
`spec_current_task`), and `get_next_task` returns `none` if and only if
every record is `COMPLETED` (the Registry being acyclic). -/
theorem scheduler_first_eligible_and_none_iff_completed (st : Status)
    (hkeys : st.map Prod.fst = qtoolsFiles.map Prod.fst)
    (hdeps : ∀ kt ∈ st, ∀ kinfo ∈ qtoolsFiles, kinfo.1 = kt.1 →
      kt.2.dependencies = kinfo.2.dependencies) :
    get_current_file st = spec_current_task st ∧
      (get_next_task st = none ↔
        ∀ kt ∈ st, kt.2.workflow_state = WorkflowState.COMPLETED) := by
  have hnd : (st.map Prod.fst).Nodup := by rw [hkeys]; exact qtools_keys_nodup
  constructor
  · unfold get_current_file get_next_task spec_current_task
    rw [Option.map_map]
    have hcomp : (Prod.fst ∘ fun kt : String × WorkflowTracker =>
        (kt.1, kt.2.dependencies)) = Prod.fst := rfl
    rw [hcomp]
    refine find?_map_congr Prod.fst Prod.fst _ _ st qtoolsFiles hkeys ?_
    intro a ha b hb hab
    have hla : lookupStatus st a.1 = some a.2 := lookupStatus_of_mem_nodup hnd ha
    have hde : a.2.dependencies = b.2.dependencies := hdeps a ha b hb hab.symm
    show (a.2.workflow_state != WorkflowState.COMPLETED
        && deps_completed st a.2.dependencies) = _
    rw [← hab, hla, hde]
  · unfold get_next_task
    rw [Option.map_eq_none']
    constructor
    · intro hnone kt hkt
      by_contra hws
      have hla : lookupStatus st kt.1 = some kt.2 := lookupStatus_of_mem_nodup hnd hkt
      obtain ⟨kt', hkt', hp⟩ := eligible_exists st hkeys hdeps kt.1 kt.2 hla hws
      rw [List.find?_eq_none] at hnone
      exact (hnone kt' hkt') hp
    · intro hall
      rw [List.find?_eq_none]
      intro kt hkt hp
      rw [hall kt hkt] at hp
      simp at hp

/-- Witness for the scheduler claim at the freshly seeded state: the
hypotheses hold there and the scheduler picks the first registry entry. -/
theorem scheduler_first_eligible_witness :
    get_current_file (initialStatus "t0") = spec_current_task (initialStatus "t0") ∧
      (get_next_task (initialStatus "t0") = none ↔
        ∀ kt ∈ initialStatus "t0", kt.2.workflow_state = WorkflowState.COMPLETED) :=
  scheduler_first_eligible_and_none_iff_completed (initialStatus "t0")
    (by decide) (by decide)

/-! ### Persistence: round trip and rejection of malformed files -/

theorem FileStatus_ofValue_value (s : FileStatus) : FileStatus_ofValue s.value = some s := by
  cases s <;> rfl

theorem ScenarioLevel_ofValue_value (s : ScenarioLevel) :
    ScenarioLevel_ofValue s.value = some s := by
  cases s <;> rfl

theorem WorkflowState_ofName_name (s : WorkflowState) :
    WorkflowState_ofName s.name = some s := by
  cases s <;> rfl

theorem parseTracker_serializeTracker (t : WorkflowTracker) :
    parseTracker (serializeTracker t) = some t := by
  unfold parseTracker serializeTracker
  rw [FileStatus_ofValue_value, ScenarioLevel_ofValue_value, WorkflowState_ofName_name]

theorem parseData_save (st : Status) :
    parseData (st.map (fun kt => (kt.1, serializeTracker kt.2))) = Except.ok st := by
  induction st with
  | nil => rfl
  | cons a tl ih =>
    rw [List.map_cons]
    show parseData ((a.1, serializeTracker a.2) :: _) = _
    simp [parseData, parseTracker_serializeTracker, ih, Except.map]

/-- Claim C7: for every workflow record mapping (any gates, issue refs,
timestamps and log contents), serializing with `save_workflow_status` and
re-reading the resulting file with `load_workflow_status` yields a mapping
equal field-for-field to the one saved. -/
theorem save_load_roundtrip (st : Status) (now : String) :
    load_workflow_status (some (save_workflow_status st)) now = Except.ok st := by
  unfold load_workflow_status save_workflow_status
  exact parseData_save st

theorem parseTracker_eq_none_of_bad_ws {r : RawTracker}
    (h : WorkflowState_ofName r.workflow_state = none) : parseTracker r = none := by
  cases h1 : FileStatus_ofValue r.status <;> cases h2 : ScenarioLevel_ofValue r.scenario <;>
    simp [parseTracker, h, h1, h2]

theorem parseData_error_of_mem {data : List (String × RawTracker)} {k : String}
    {raw : RawTracker} (hmem : (k, raw) ∈ data) (hbad : parseTracker raw = none) :
    parseData data = Except.error LoadError.CorruptState := by
  induction data with
  | nil => simp at hmem
  | cons a tl ih =>
    rcases a with ⟨a1, a2⟩
    rw [List.mem_cons] at hmem
    rcases hmem with h | h
    · have h2 : raw = a2 := ((by simpa [Prod.ext_iff] using h : k = a1 ∧ raw = a2)).2
      show (match parseTracker a2 with
        | none => Except.error LoadError.CorruptState
        | some t => (parseData tl).map (fun s => (a1, t) :: s)) = _
      rw [← h2, hbad]
    · show (match parseTracker a2 with
        | none => Except.error LoadError.CorruptState
        | some t => (parseData tl).map (fun s => (a1, t) :: s)) = _
      cases hpt : parseTracker a2 with
      | none => rfl
      | some t => rw [ih h]; rfl

/-- Claim C6: `load()` on a present state file containing a record with an
unknown gate name fails with the `CorruptState` error, and in particular
never coerces the value or falls back to any parsed mapping (such as the
default-seeded state). -/
theorem load_rejects_unknown_gate (data : List (String × RawTracker)) (now k : String)
    (raw : RawTracker) (hmem : (k, raw) ∈ data)
    (hbad : WorkflowState_ofName raw.workflow_state = none) :
    load_workflow_status (some data) now = Except.error LoadError.CorruptState ∧
      ∀ st : Status, load_workflow_status (some data) now ≠ Except.ok st := by
  have h1 : parseData data = Except.error LoadError.CorruptState :=
    parseData_error_of_mem hmem (parseTracker_eq_none_of_bad_ws hbad)
  refine ⟨h1, ?_⟩
  intro st hok
  rw [show load_workflow_status (some data) now = parseData data from rfl, h1] at hok
  exact absurd hok (by simp)

/-- A present-but-malformed persisted record: its `workflow_state` field
holds the unknown gate name `"DONE"`. -/
def badRawTracker : RawTracker :=
  { source_file := "src/utils/types.rs"
    test_file := "tests/utils/types_tests.rs"
    example_file := some "examples/types_usage.rs"
    status := "pending"
    scenario := "basic"
    workflow_state := "DONE"
    issue_number := none
    last_updated := "t0"
    notes := []
    dependencies := []
    acceptance_criteria := []
    test_review_comments := []
    implementation_review_comments := []
    documentation_review_comments := []
    examples_review_comments := [] }

/-- Witness for the corrupt-state claim on a concrete one-record file with
gate name `"DONE"`. -/
theorem load_rejects_unknown_gate_witness :
    load_workflow_status (some [("src/utils/types.rs", badRawTracker)]) "t1"
        = Except.error LoadError.CorruptState ∧
      ∀ st : Status,
        load_workflow_status (some [("src/utils/types.rs", badRawTracker)]) "t1"
          ≠ Except.ok st :=
  load_rejects_unknown_gate [("src/utils/types.rs", badRawTracker)] "t1"
    "src/utils/types.rs" badRawTracker (by simp) (by decide)

/-- The state reached from the seeded state by `record_issue` then
`record_tests`: the current component `src/utils/types.rs` sits in gate
`TESTS_PROVIDED` with legacy status `tests_written`. -/
def exampleState2 : Status :=
  (record_tests (record_issue (initialStatus "t0") "t1" "42").1 "t2").1

/-- Claim C4: for every record in gate `TESTS_PROVIDED`, invoking the
`request-test-changes` command without a comment is rejected by the
missing-comment guard before the helper runs: the mapping is returned
unchanged (gate still `TESTS_PROVIDED`, no log appended) and nothing is
saved. -/
theorem request_test_changes_empty_comment_guard (st : Status) (now k : String)
    (hws : (lookupStatus st k).map WorkflowTracker.workflow_state
      = some WorkflowState.TESTS_PROVIDED) :
    do_request_test_changes st now "" = (st, RequestChangesResult.missing_comment) ∧
      (lookupStatus (do_request_test_changes st now "").1 k).map
          WorkflowTracker.workflow_state = some WorkflowState.TESTS_PROVIDED := by
  refine ⟨by simp [do_request_test_changes], ?_⟩
  simpa [do_request_test_changes] using hws

/-- Witness for the missing-comment guard at a concrete state whose current
record is in `TESTS_PROVIDED`. -/
theorem request_test_changes_empty_comment_guard_witness :
    do_request_test_changes exampleState2 "t3" ""
        = (exampleState2, RequestChangesResult.missing_comment) ∧
      (lookupStatus (do_request_test_changes exampleState2 "t3" "").1
          "src/utils/types.rs").map WorkflowTracker.workflow_state
        = some WorkflowState.TESTS_PROVIDED :=
  request_test_changes_empty_comment_guard exampleState2 "t3" "src/utils/types.rs"
    (by decide)

/-! ### Action methods: no gate validation, frame property, legacy status -/

/-- Counterexample to the gate-validation claim: in the freshly seeded
state the current record sits in `PENDING`, which is not the unique
required source gate `TESTS_PROVIDED` of `approve_tests`, yet the call does
not fail — it returns `True` and moves the record to `TESTS_REVIEWED`. -/
theorem approve_tests_no_gate_check_counterexample :
    (lookupStatus (initialStatus "t0") "src/utils/types.rs").map
        WorkflowTracker.workflow_state = some WorkflowState.PENDING ∧
      WorkflowState.PENDING ≠ WorkflowState.TESTS_PROVIDED ∧
      (approve_tests (initialStatus "t0") "t1" none).2 = true ∧
      (lookupStatus (approve_tests (initialStatus "t0") "t1" none).1
          "src/utils/types.rs").map WorkflowTracker.workflow_state
        = some WorkflowState.TESTS_REVIEWED :=
  ⟨by decide, by decide, by decide, by decide⟩

/-- Claim C1 (amended): the action methods perform no source-gate check at
all.  When no current task exists every action returns `False` and leaves
the mapping untouched; when a current task exists every action
unconditionally succeeds and sets the current record's gate to the action's
target state, whatever gate the record was in — no `IllegalTransition`
error exists in the code. -/
theorem actions_unvalidated (st : Status) (now ref c : String) (oc : Option String) :
    (get_current_file st = none →
      record_issue st now ref = (st, false) ∧
      record_tests st now = (st, false) ∧
      approve_tests st now oc = (st, false) ∧
      request_test_changes st now c = (st, false) ∧
      record_implementation st now = (st, false) ∧
      approve_implementation st now oc = (st, false)) ∧
    (∀ k, get_current_file st = some k →
      ((record_issue st now ref).2 = true ∧
        (lookupStatus (record_issue st now ref).1 k).map WorkflowTracker.workflow_state
          = some WorkflowState.ISSUE_CREATED) ∧
      ((record_tests st now).2 = true ∧
        (lookupStatus (record_tests st now).1 k).map WorkflowTracker.workflow_state
          = some WorkflowState.TESTS_PROVIDED) ∧
      ((approve_tests st now oc).2 = true ∧
        (lookupStatus (approve_tests st now oc).1 k).map WorkflowTracker.workflow_state
          = some WorkflowState.TESTS_REVIEWED) ∧
      ((request_test_changes st now c).2 = true ∧
        (lookupStatus (request_test_changes st now c).1 k).map WorkflowTracker.workflow_state
          = some WorkflowState.ISSUE_CREATED) ∧
      ((record_implementation st now).2 = true ∧
        (lookupStatus (record_implementation st now).1 k).map WorkflowTracker.workflow_state
          = some WorkflowState.IMPLEMENTATION_PROVIDED) ∧
      ((approve_implementation st now oc).2 = true ∧
        (lookupStatus (approve_implementation st now oc).1 k).map WorkflowTracker.workflow_state
          = some WorkflowState.IMPLEMENTATION_REVIEWED)) := by
  constructor
  · intro h
    exact ⟨modify_current_of_none h, modify_current_of_none h, modify_current_of_none h,
      modify_current_of_none h, modify_current_of_none h, modify_current_of_none h⟩
  · intro k h
    obtain ⟨t, ht⟩ := lookup_isSome_of_get_current_file h
    unfold record_issue record_tests approve_tests request_test_changes
      record_implementation approve_implementation
    refine ⟨⟨(modify_current_of_some h).1, ?_⟩, ⟨(modify_current_of_some h).1, ?_⟩,
      ⟨(modify_current_of_some h).1, ?_⟩, ⟨(modify_current_of_some h).1, ?_⟩,
      ⟨(modify_current_of_some h).1, ?_⟩, ⟨(modify_current_of_some h).1, ?_⟩⟩ <;>
      rw [(modify_current_of_some h).2, ht] <;> rfl

/-- Witness for the amended no-validation claim: in the seeded state,
`record_issue` succeeds and moves the current record to `ISSUE_CREATED`. -/
theorem actions_unvalidated_witness :
    (record_issue (initialStatus "t0") "t1" "7").2 = true ∧
      (lookupStatus (record_issue (initialStatus "t0") "t1" "7").1
          "src/utils/types.rs").map WorkflowTracker.workflow_state
        = some WorkflowState.ISSUE_CREATED :=
  (((actions_unvalidated (initialStatus "t0") "t1" "7" "c" none).2
    "src/utils/types.rs" (by decide))).1

/-- Claim C9: every action method operates only on the record selected by
the scheduler: for every component id other than the current task, that
component's workflow record is unchanged by each of the six action
methods. -/
theorem actions_only_touch_current (st : Status) (now ref c : String) (oc : Option String)
    (k : String) (h : get_current_file st ≠ some k) :
    lookupStatus (record_issue st now ref).1 k = lookupStatus st k ∧
      lookupStatus (record_tests st now).1 k = lookupStatus st k ∧
      lookupStatus (approve_tests st now oc).1 k = lookupStatus st k ∧
      lookupStatus (request_test_changes st now c).1 k = lookupStatus st k ∧
      lookupStatus (record_implementation st now).1 k = lookupStatus st k ∧
      lookupStatus (approve_implementation st now oc).1 k = lookupStatus st k :=
  ⟨modify_current_frame h, modify_current_frame h, modify_current_frame h,
   modify_current_frame h, modify_current_frame h, modify_current_frame h⟩

/-- Witness for the frame claim: in the seeded state (current task
`src/utils/types.rs`), the record of `src/sync/phase.rs` is untouched by
every action. -/
theorem actions_only_touch_current_witness :
    lookupStatus (record_issue (initialStatus "t0") "t1" "7").1 "src/sync/phase.rs"
        = lookupStatus (initialStatus "t0") "src/sync/phase.rs" ∧
      lookupStatus (record_tests (initialStatus "t0") "t1").1 "src/sync/phase.rs"
        = lookupStatus (initialStatus "t0") "src/sync/phase.rs" ∧
      lookupStatus (approve_tests (initialStatus "t0") "t1" none).1 "src/sync/phase.rs"
        = lookupStatus (initialStatus "t0") "src/sync/phase.rs" ∧
      lookupStatus (request_test_changes (initialStatus "t0") "t1" "c").1 "src/sync/phase.rs"
        = lookupStatus (initialStatus "t0") "src/sync/phase.rs" ∧
      lookupStatus (record_implementation (initialStatus "t0") "t1").1 "src/sync/phase.rs"
        = lookupStatus (initialStatus "t0") "src/sync/phase.rs" ∧
      lookupStatus (approve_implementation (initialStatus "t0") "t1" none).1 "src/sync/phase.rs"
        = lookupStatus (initialStatus "t0") "src/sync/phase.rs" :=
  actions_only_touch_current (initialStatus "t0") "t1" "7" "c" none "src/sync/phase.rs"
    (by decide)

/-- Claim C10: `request_test_changes` updates only `workflow_state`,
`test_review_comments` and `last_updated`.  From a record in gate
`TESTS_PROVIDED` whose legacy `status` field reads `tests_written` (as
`record_tests` leaves it), the call moves the gate back to `ISSUE_CREATED`
while `status` still reads `tests_written` — the two status fields
disagree; `issue_number` is untouched, the comment is appended and
`last_updated` is refreshed. -/
theorem request_test_changes_leaves_legacy_status (st : Status) (now c k : String)
    (hcur : get_current_file st = some k)
    (_hws : (lookupStatus st k).map WorkflowTracker.workflow_state
      = some WorkflowState.TESTS_PROVIDED)
    (hst : (lookupStatus st k).map WorkflowTracker.status
      = some FileStatus.TESTS_WRITTEN) :
    (lookupStatus (request_test_changes st now c).1 k).map WorkflowTracker.workflow_state
        = some WorkflowState.ISSUE_CREATED ∧
      (lookupStatus (request_test_changes st now c).1 k).map WorkflowTracker.status
        = some FileStatus.TESTS_WRITTEN ∧
      (lookupStatus (request_test_changes st now c).1 k).map WorkflowTracker.issue_number
        = (lookupStatus st k).map WorkflowTracker.issue_number ∧
      (lookupStatus (request_test_changes st now c).1 k).map
          WorkflowTracker.test_review_comments
        = (lookupStatus st k).map (fun t => t.test_review_comments ++ [c]) ∧
      (lookupStatus (request_test_changes st now c).1 k).map WorkflowTracker.last_updated
        = some now := by
  obtain ⟨t, ht⟩ := lookup_isSome_of_get_current_file hcur
  have hupd : lookupStatus (request_test_changes st now c).1 k
      = (lookupStatus st k).map (fun t =>
          { t with workflow_state := WorkflowState.ISSUE_CREATED
                   test_review_comments := t.test_review_comments ++ [c]
                   last_updated := now }) :=
    (modify_current_of_some hcur).2
  rw [ht] at hst
  have hstt : t.status = FileStatus.TESTS_WRITTEN := by simpa using hst
  refine ⟨?_, ?_, ?_, ?_, ?_⟩ <;> rw [hupd, ht] <;> simp [hstt]

/-- Witness for the legacy-status divergence: concrete run after
`record_issue` and `record_tests` on the seeded state. -/
theorem request_test_changes_leaves_legacy_status_witness :
    (lookupStatus (request_test_changes exampleState2 "t3" "cover edge cases").1
          "src/utils/types.rs").map WorkflowTracker.workflow_state
        = some WorkflowState.ISSUE_CREATED ∧
      (lookupStatus (request_test_changes exampleState2 "t3" "cover edge cases").1
          "src/utils/types.rs").map WorkflowTracker.status
        = some FileStatus.TESTS_WRITTEN ∧
      (lookupStatus (request_test_changes exampleState2 "t3" "cover edge cases").1
          "src/utils/types.rs").map WorkflowTracker.issue_number
        = (lookupStatus exampleState2 "src/utils/types.rs").map
            WorkflowTracker.issue_number ∧
      (lookupStatus (request_test_changes exampleState2 "t3" "cover edge cases").1
          "src/utils/types.rs").map WorkflowTracker.test_review_comments
        = (lookupStatus exampleState2 "src/utils/types.rs").map
            (fun t => t.test_review_comments ++ ["cover edge cases"]) ∧
      (lookupStatus (request_test_changes exampleState2 "t3" "cover edge cases").1
          "src/utils/types.rs").map WorkflowTracker.last_updated = some "t3" :=
  request_test_changes_leaves_legacy_status exampleState2 "t3" "cover edge cases"
    "src/utils/types.rs" (by decide) (by decide) (by decide)

/-- Claim C3 (code bug): the shell command `request-implementation-changes`
invokes the helper attribute named by
`do_request_implementation_changes_target`, but `QToolsWorkflowHelper`
defines no such method — the symmetric test rollback does exist — so the
call raises `AttributeError` instead of performing the documented
`IMPLEMENTATION_PROVIDED` to `TESTS_REVIEWED` rollback. -/
theorem request_implementation_changes_handler_missing :
    do_request_implementation_changes_target ∉ helper_method_names ∧
      "request_test_changes" ∈ helper_method_names := by
  decide

/-! ### Registry construction -/

/-- Counterexample to the fail-fast claim: a two-node cyclic registry is
accepted by the constructor, which performs no validation and succeeds
rather than failing with a `RegistryError`. -/
theorem registry_construction_accepts_cycle_counterexample :
    hasCycleB cyclicFiles = true ∧
      QToolsProject_init cyclicFiles = Except.ok cyclicFiles :=
  ⟨by decide, rfl⟩

/-- Claim C5 (amended): `QToolsProject.__init__` performs no dependency
validation and never fails — it accepts any table, cyclic or dangling
included, and the process proceeds; no `RegistryError` check exists in the
code.  The built-in registry itself happens to be acyclic with every
declared dependency a registry key. -/
theorem registry_no_validation_but_registry_valid :
    (∀ reg, QToolsProject_init reg = Except.ok reg) ∧
      hasCycleB qtoolsFiles = false ∧ danglingB qtoolsFiles = false :=
  ⟨fun _ => rfl, by decide, by decide⟩
